import Mathlib

/-!
Verification of the safety-gating core of the TwinCAT MCP server
(`mcp-server/server.py`): the time-boxed armed/disarmed authorization gate,
the confirmation checker, the guard-sequencing prefix of the tool router
`call_tool`, and the supervised external-process runners
`run_tc_automation` / `run_tc_automation_with_progress`.

Embedding conventions:
* The mutable module-level dict `_armed_state` becomes an explicit
  `ArmState` value threaded through every operation; each Python function
  that reads or writes it takes the state (and the current clock reading
  `now`) and returns the successor state together with its result.
* `time.time()` (a float) is modelled as an exact rational `now : ℚ`;
  `ARMED_MODE_TTL` (an `int` read from the environment, default 300) is a
  parameter `ttl : ℤ`.
* Tool-call argument dicts are association lists from key strings to
  `PyVal` (a string value or Python `None`); `dict.get` with a default is
  `getArgD`.  The tool schemas type the keys read by the guards
  (`confirm`, `amsNetId`, `reason`) as strings.
* Raised Python exceptions are `Except.error`; dict results returned
  normally are `Except.ok`.  The opaque external process is a behaviour
  parameter (`ProcBehavior` / `WPBehavior`), and `json.loads` success on
  the primary output is abstracted by a predicate `jsonOk : String → Bool`.
-/

namespace TwincatMCP

/-- Value stored under a key of a tool-call argument map: a string, or
Python `None`.  (server.py: the guard-relevant keys `confirm`, `amsNetId`
and `reason` are declared as strings in the tool schemas.) -/
inductive PyVal where
  | vStr (s : String)
  | vNone
deriving DecidableEq, Repr

/-- A tool-call argument dict, as an association list (keys unique). -/
abbrev Args := List (String × PyVal)

/-- Python `arguments.get(k)`: `none` when the key is absent. -/
def getArg (args : Args) (k : String) : Option PyVal :=
  (args.find? (fun p => p.1 == k)).map Prod.snd

/-- Python `arguments.get(k, d)`: default only when the key is absent. -/
def getArgD (args : Args) (k : String) (d : PyVal) : PyVal :=
  (getArg args k).getD d

/-- Python truthiness of a guard argument value: a non-empty string is
truthy, the empty string and `None` are falsy. -/
def pyTruthy : PyVal → Bool
  | .vStr s => !(s == "")
  | .vNone => false

/-- Python `str(...)` rendering used when a value is interpolated into an
f-string (`None` prints as "None"). -/
def pyValStr : PyVal → String
  | .vStr s => s
  | .vNone => "None"

/-- Python `str(...)` of the stored optional reason. -/
def pyOptStr : Option String → String
  | some r => r
  | none => "None"

/-- Python `s.startswith(p)`: code-point prefix test. -/
def pyStartsWith (s p : String) : Bool := p.data.isPrefixOf s.data

/-- Python `s.strip()`: remove leading and trailing whitespace
code points. -/
def pyStrip (s : String) : String :=
  ⟨(((s.data.dropWhile Char.isWhitespace).reverse.dropWhile
      Char.isWhitespace).reverse)⟩

/-- Python `s[n:]`: drop the first `n` code points. -/
def pyDrop (n : Nat) (s : String) : String := ⟨s.data.drop n⟩

/-- server.py line 47: default of `ARMED_MODE_TTL` when the
`TWINCAT_ARMED_TTL` environment variable is unset. -/
def ARMED_MODE_TTL_default : ℤ := 300

/-- server.py lines 50-56: tools that require armed mode. -/
def DANGEROUS_TOOLS : List String :=
  ["twincat_activate", "twincat_restart", "twincat_deploy",
   "twincat_set_state", "twincat_write_var"]

/-- server.py lines 59-63: tools that additionally require confirmation. -/
def CONFIRMATION_REQUIRED_TOOLS : List String :=
  ["twincat_activate", "twincat_restart", "twincat_deploy"]

/-- server.py line 66. -/
def CONFIRM_TOKEN : String := "CONFIRM"

/-- server.py lines 69-73: the process-wide armed state `_armed_state`. -/
structure ArmState where
  armed : Bool
  armed_at : Option ℚ
  reason : Option String
deriving DecidableEq, Repr

/-- The initial (and fully cleared) state: armed=False, armed_at=None,
reason=None. -/
def disarmedState : ArmState := ⟨false, none, none⟩

/-- server.py lines 69-73: startup value of `_armed_state`. -/
def initialArmState : ArmState := disarmedState

/-- server.py lines 76-92 `is_armed`: true only while armed and within the
TTL; on a query that finds the TTL elapsed it clears the stored state
(lazy auto-disarm) and returns false. -/
def is_armed (ttl : ℤ) (s : ArmState) (now : ℚ) : ArmState × Bool :=
  if s.armed = false then (s, false)
  else
    match s.armed_at with
    | none => (s, false)
    | some t =>
      if now - t > (ttl : ℚ) then (disarmedState, false)
      else (s, true)

/-- Python `int(x)` truncation toward zero on a real value. -/
def pyInt (x : ℚ) : ℤ := if 0 ≤ x then ⌊x⌋ else ⌈x⌉

/-- server.py lines 95-101 `get_armed_time_remaining`: 0 when not armed
(delegating expiry, and its state clearing, to `is_armed`), otherwise
`max(0, int(ARMED_MODE_TTL - elapsed))`. -/
def get_armed_time_remaining (ttl : ℤ) (s : ArmState) (now : ℚ) : ArmState × ℤ :=
  if (is_armed ttl s now).2 = false then ((is_armed ttl s now).1, 0)
  else
    match (is_armed ttl s now).1.armed_at with
    | some t => ((is_armed ttl s now).1, max 0 (pyInt ((ttl : ℚ) - (now - t))))
    | none => ((is_armed ttl s now).1, 0)

/-- server.py lines 104-113 `arm_dangerous_operations`: overwrite the state
with armed=True, armed_at=now, reason; return the response dict
(armed, ttl_seconds, reason). -/
def arm_dangerous_operations (ttl : ℤ) (_s : ArmState) (now : ℚ) (reason : String) :
    ArmState × (Bool × ℤ × String) :=
  (⟨true, some now, some reason⟩, (true, ttl, reason))

/-- server.py lines 116-121 `disarm_dangerous_operations`: unconditionally
clear the state. -/
def disarm_dangerous_operations (_s : ArmState) : ArmState × Bool :=
  (disarmedState, false)

/-- server.py lines 131-140: denial text for running TcUnit tests on a
remote PLC while disarmed. -/
def tcunitDenialMessage (ams : String) (ttl : ℤ) : String :=
  "🔒 SAFETY: Running TcUnit tests on remote PLC \x27" ++ ams ++
  "\x27 requires armed mode.\n\n" ++
  "Local testing (127.0.0.1.1.1) does not require arming.\n" ++
  "To run tests on a remote PLC:\n" ++
  "1. Call \x27twincat_arm_dangerous_operations\x27 with a reason\n" ++
  "2. Then retry this operation within " ++ toString ttl ++ " seconds\n\n" ++
  "This safety mechanism prevents accidental PLC modifications."

/-- server.py lines 145-151: denial text for a dangerous tool while
disarmed; it instructs the caller to arm first. -/
def armDenialMessage (tool : String) (ttl : ℤ) : String :=
  "🔒 SAFETY: \x27" ++ tool ++
  "\x27 is a dangerous operation that requires armed mode.\n\n" ++
  "The server is currently in SAFE mode. To execute this operation:\n" ++
  "1. Call \x27twincat_arm_dangerous_operations\x27 with a reason\n" ++
  "2. Then retry this operation within " ++ toString ttl ++ " seconds\n\n" ++
  "This safety mechanism prevents accidental PLC modifications."

/-- server.py line 153: informational text when a dangerous tool passes the
armed check. -/
def armedActiveMessage (reason : Option String) : String :=
  "⚠️ Armed mode active (reason: " ++ pyOptStr reason ++ ")"

/-- server.py lines 128-131 condition: the effective amsNetId value is
truthy and does not start with "127.0.0.1" (a remote target). -/
def tcunitRemoteCheck : PyVal → Bool
  | .vStr a => (!(a == "")) && (!(pyStartsWith a "127.0.0.1"))
  | .vNone => false

/-- server.py lines 124-153 `check_armed_for_tool`: non-dangerous tools are
allowed outright, except the special case of `twincat_run_tcunit` with a
non-empty argument map targeting a remote PLC, which requires armed mode;
dangerous tools are denied while not effectively armed, with a message
instructing the caller to arm.  Returns (state, allowed, message). -/
def check_armed_for_tool (ttl : ℤ) (tool_name : String) (arguments : Args)
    (s : ArmState) (now : ℚ) : ArmState × Bool × String :=
  if tool_name ∉ DANGEROUS_TOOLS then
    if tool_name = "twincat_run_tcunit" ∧ arguments ≠ [] then
      if tcunitRemoteCheck (getArgD arguments "amsNetId" (.vStr "127.0.0.1.1.1")) then
        if (is_armed ttl s now).2 = false then
          ((is_armed ttl s now).1, false,
           tcunitDenialMessage
             (pyValStr (getArgD arguments "amsNetId" (.vStr "127.0.0.1.1.1"))) ttl)
        else ((is_armed ttl s now).1, true, "")
      else (s, true, "")
    else (s, true, "")
  else
    if (is_armed ttl s now).2 = false then
      ((get_armed_time_remaining ttl (is_armed ttl s now).1 now).1, false,
       armDenialMessage tool_name ttl)
    else ((is_armed ttl s now).1, true, armedActiveMessage (is_armed ttl s now).1.reason)

/-- server.py lines 164-170: denial text when confirmation is missing. -/
def confirmationRequiredMessage (tool : String) (target : String) : String :=
  "⚠️ CONFIRMATION REQUIRED for \x27" ++ tool ++ "\x27\n\n" ++
  "This operation will affect: " ++ target ++ "\n\n" ++
  "To proceed, add the parameter:\n  confirm: \"" ++ CONFIRM_TOKEN ++ "\"\n\n" ++
  "This ensures intentional execution of destructive operations."

/-- server.py lines 156-172 `check_confirmation`: allowed unless the tool
requires confirmation and the supplied `confirm` argument (defaulting to
the empty string when absent) differs from the exact literal
`CONFIRM_TOKEN`.  Reads no armed state. -/
def check_confirmation (tool_name : String) (arguments : Args) : Bool × String :=
  if tool_name ∉ CONFIRMATION_REQUIRED_TOOLS then (true, "")
  else
    if getArgD arguments "confirm" (.vStr "") ≠ .vStr CONFIRM_TOKEN then
      (false,
       confirmationRequiredMessage tool_name
         (pyValStr (getArgD arguments "amsNetId" (.vStr "unknown target"))))
    else (true, "")

/-- server.py lines 1084. -/
def disarmResponseText : String :=
  "🔒 Dangerous operations DISARMED\n\nThe server is now in SAFE mode."

/-- server.py lines 1087-1098. -/
def armResponseText (ttl : ℤ) (reason : String) : String :=
  "⚠️ Dangerous operations ARMED\n\n" ++
  "🕐 TTL: " ++ toString ttl ++ " seconds\n" ++
  "📝 Reason: " ++ reason ++ "\n\n" ++
  "The following tools are now available:\n" ++
  "  • twincat_activate\n  • twincat_restart\n  • twincat_deploy\n" ++
  "  • twincat_set_state\n  • twincat_write_var\n\n" ++
  "⏰ Armed mode will automatically expire in " ++ toString ttl ++ " seconds."

/-- Outcome of the guard-sequencing prefix of `call_tool` (server.py lines
1073-1113): the arm/disarm tool is handled first; otherwise the armed-state
guard runs, then the confirmation guard, each short-circuiting with its own
message; only `dispatch` continues into the per-tool branches, which are
the only places `run_tc_automation` / `run_tc_automation_with_progress`
are invoked. -/
inductive RouteOutcome where
  | armToolResponse (text : String)
  | armDenied (msg : String)
  | confirmDenied (msg : String)
  | dispatch (tool : String)
deriving DecidableEq, Repr

/-- Whether a route outcome reaches the per-tool branches, i.e. any code
path that can invoke the external process. -/
def mayInvokeExternal : RouteOutcome → Bool
  | .dispatch _ => true
  | _ => false

/-- server.py lines 1073-1113: the guard-sequencing prefix of `call_tool`.
The per-tool dispatch after both guards pass is abstracted as
`RouteOutcome.dispatch`; the text formatting of successful results is an
external-collaborator concern. -/
def call_tool_route (ttl : ℤ) (name : String) (arguments : Args)
    (s : ArmState) (now : ℚ) : ArmState × RouteOutcome :=
  if name = "twincat_arm_dangerous_operations" then
    if pyTruthy (getArgD arguments "disarm" .vNone) then
      ((disarm_dangerous_operations s).1, .armToolResponse disarmResponseText)
    else
      ((arm_dangerous_operations ttl s now
          (pyValStr (getArgD arguments "reason" (.vStr "No reason provided")))).1,
       .armToolResponse
         (armResponseText ttl
           (pyValStr (getArgD arguments "reason" (.vStr "No reason provided")))))
  else
    if (check_armed_for_tool ttl name arguments s now).2.1 = false then
      ((check_armed_for_tool ttl name arguments s now).1,
       .armDenied (check_armed_for_tool ttl name arguments s now).2.2)
    else
      if (check_confirmation name arguments).1 = false then
        ((check_armed_for_tool ttl name arguments s now).1,
         .confirmDenied (check_confirmation name arguments).2)
      else
        ((check_armed_for_tool ttl name arguments s now).1, .dispatch name)

/-- server.py lines 218-223: the message of the `FileNotFoundError` raised
by `find_tc_automation_exe` (the real text appends the searched filesystem
paths, which depend on the runtime environment, and build guidance). -/
def executableNotFoundMessage : String :=
  "TcAutomation.exe not found. Searched paths: (searched candidate paths)" ++
  "\n\nPlease build the TcAutomation project first:\n  .\\scripts\\build.ps1"

/-- server.py lines 213-223 `find_tc_automation_exe`: returns the first
existing candidate path, and raises `FileNotFoundError` when none exists.
`exeFound` abstracts whether any candidate path exists on disk. -/
def find_tc_automation_exe (exeFound : Bool) : Except String Unit :=
  if exeFound then .ok () else .error executableNotFoundMessage

/-- Behaviour of one run of the opaque external executable under
`subprocess.run` (server.py lines 232-239): the spawn raises, the run
exceeds the timeout, or it completes with the given stdout/stderr text. -/
inductive ProcBehavior where
  | spawnError (msg : String)
  | timesOut
  | completes (stdout : String) (stderrText : String)
deriving DecidableEq, Repr

/-- The dict returned by `run_tc_automation`, one constructor per distinct
return site of server.py lines 241-266: a parsed JSON payload, or a
failure dict built at the invalid-JSON, empty-output, timeout, or
caught-exception site. -/
inductive TcResult where
  | parsed (payload : String)
  | invalidJson (errorMessage : String) (stderr : String)
  | noOutput (errorMessage : String)
  | timedOut (errorMessage : String)
  | exnCaught (errorMessage : String)
deriving DecidableEq, Repr

/-- server.py lines 226-266 `run_tc_automation`.  `find_tc_automation_exe`
is called before the try-block, so its `FileNotFoundError` propagates
(`Except.error`); every failure inside the try-block is caught and
returned as a dict.  `jsonOk` abstracts whether `json.loads` accepts the
primary output. -/
def run_tc_automation (exeFound : Bool) (jsonOk : String → Bool)
    (behavior : ProcBehavior) (_command : String) (_args : List String) :
    Except String TcResult :=
  match find_tc_automation_exe exeFound with
  | .error e => .error e
  | .ok _ =>
    match behavior with
    | .spawnError msg => .ok (.exnCaught msg)
    | .timesOut => .ok (.timedOut "Command timed out after 5 minutes")
    | .completes stdout stderrText =>
      if pyStrip stdout ≠ "" then
        if jsonOk stdout then .ok (.parsed stdout)
        else .ok (.invalidJson ("Invalid JSON output: " ++ stdout) stderrText)
      else
        .ok (.noOutput (if stderrText ≠ "" then stderrText
                        else "No output from TcAutomation.exe"))

/-- Behaviour of one run of the external executable under
`run_tc_automation_with_progress` (server.py lines 278-312).  In the
`timesOut` and `completes` cases, `stderrLines` are the stderr lines the
drain worker `read_stderr` captured into `stderr_queue` (each already
`strip()`ped, server.py line 297), in emission order. -/
inductive WPBehavior where
  | spawnError (msg : String)
  | timesOut (stderrLines : List String)
  | completes (stdout : String) (stderrLines : List String)
deriving DecidableEq, Repr

/-- The dict returned by `run_tc_automation_with_progress`, one constructor
per distinct return site of server.py lines 307-349.  Note the timeout
dict carries no `progressMessages` key in the source. -/
inductive WPResult where
  | parsed (payload : String) (progressMessages : List String)
  | invalidJson (errorMessage : String) (progressMessages : List String)
  | noOutput (errorMessage : String) (progressMessages : List String)
  | timedOut (errorMessage : String)
  | exnCaught (errorMessage : String) (progressMessages : List String)
deriving DecidableEq, Repr

/-- server.py lines 315-323, loop body: a captured stderr line starting
with "[PROGRESS]" is appended with the 10-character marker dropped and the
remainder stripped (`line[10:].strip()`); any other line is appended as
captured. -/
def processStderrLine (acc : List String) (line : String) : List String :=
  if pyStartsWith line "[PROGRESS]" then acc ++ [pyStrip (pyDrop 10 line)]
  else acc ++ [line]

/-- server.py lines 314-323: drain the captured stderr lines, in order,
into the `progress_messages` list (initially empty). -/
def collectProgress (lines : List String) : List String :=
  lines.foldl processStderrLine []

/-- server.py lines 269-349 `run_tc_automation_with_progress`.  Mirrors the
source control flow: `find_tc_automation_exe` is outside the try-block, so
its `FileNotFoundError` propagates; on `subprocess.TimeoutExpired` the
process is killed and the pair `(timeout dict, progress_messages)` is
returned — at that point `progress_messages` is still `[]`, because the
queue-draining loop (lines 315-323) only runs after a successful
`communicate`, so the lines sitting in `stderr_queue` are dropped; on
completion the queue is drained and the primary output parsed. -/
def run_tc_automation_with_progress (exeFound : Bool) (jsonOk : String → Bool)
    (behavior : WPBehavior) (timeout_minutes : ℤ) :
    Except String (WPResult × List String) :=
  match find_tc_automation_exe exeFound with
  | .error e => .error e
  | .ok _ =>
    match behavior with
    | .spawnError msg => .ok (.exnCaught msg [], [])
    | .timesOut _capturedLines =>
      .ok (.timedOut ("Command timed out after " ++ toString timeout_minutes ++
                      " minutes"), [])
    | .completes stdout lines =>
      if pyStrip stdout ≠ "" then
        if jsonOk stdout then
          .ok (.parsed stdout (collectProgress lines), collectProgress lines)
        else
          .ok (.invalidJson ("Invalid JSON output: " ++ stdout)
                 (collectProgress lines), collectProgress lines)
      else
        .ok (.noOutput "No output from TcAutomation.exe"
               (collectProgress lines), collectProgress lines)

/-- The `progress_messages` component of a normally-returned pair. -/
def wpProgress : Except String (WPResult × List String) → List String
  | .ok p => p.2
  | .error _ => []

/-- Whether a call returned normally (no exception propagated). -/
def isOkE {α : Type} : Except String α → Bool
  | .ok _ => true
  | .error _ => false

/-- A concrete stand-in for the abstract `json.loads`-accepts predicate. -/
def jsonNever : String → Bool := fun _ => false

/-- spec.md section 3 invariant: `armed == true` implies `armedAt` is
set. -/
def ArmInv (s : ArmState) : Prop := s.armed = true → s.armed_at ≠ none

lemma armInv_disarmed : ArmInv disarmedState := by
  intro h
  simp [disarmedState] at h

lemma is_armed_true_iff (ttl : ℤ) (s : ArmState) (now : ℚ) :
    (is_armed ttl s now).2 = true ↔
      (s.armed = true ∧ ∃ t, s.armed_at = some t ∧ now - t ≤ (ttl : ℚ)) := by
  rcases s with ⟨a, o, r⟩
  cases a <;> rcases o with _ | t <;> simp [is_armed]
  split
  case isTrue h =>
    simp [not_le.mpr h]
    linarith
  case isFalse h =>
    simp [not_lt.mp h]
    linarith

lemma is_armed_expired (ttl : ℤ) (s : ArmState) (now : ℚ) (t : ℚ)
    (ha : s.armed = true) (hat : s.armed_at = some t)
    (hgt : (ttl : ℚ) < now - t) :
    is_armed ttl s now = (disarmedState, false) := by
  rcases s with ⟨a, o, r⟩
  simp only at ha hat
  subst ha
  subst hat
  simp [is_armed, hgt]

lemma is_armed_fst (ttl : ℤ) (s : ArmState) (now : ℚ) :
    (is_armed ttl s now).1 = s ∨ (is_armed ttl s now).1 = disarmedState := by
  rcases s with ⟨a, o, r⟩
  cases a <;> rcases o with _ | t <;> simp [is_armed]
  split <;> simp

lemma get_armed_time_remaining_fst (ttl : ℤ) (s : ArmState) (now : ℚ) :
    (get_armed_time_remaining ttl s now).1 = (is_armed ttl s now).1 := by
  unfold get_armed_time_remaining
  split
  · rfl
  · split <;> rfl

/-- C5: `is_armed` returns true iff the state is armed with a recorded
arming time at most TTL seconds in the past, and whenever it returns false
because the TTL elapsed it clears the stored state to
(armed=false, armed_at=none, reason=none) — lazy auto-disarm on query. -/
theorem is_armed_spec (ttl : ℤ) (s : ArmState) (now : ℚ) :
    ((is_armed ttl s now).2 = true ↔
      (s.armed = true ∧ ∃ t, s.armed_at = some t ∧ now - t ≤ (ttl : ℚ)))
    ∧ (∀ t, s.armed = true → s.armed_at = some t → (ttl : ℚ) < now - t →
        is_armed ttl s now = (disarmedState, false)) :=
  ⟨is_armed_true_iff ttl s now, fun t ha hat hgt => is_armed_expired ttl s now t ha hat hgt⟩

/-- Witness for C5: arming at time 0 with TTL 300 and querying at time 400
yields false and the cleared state. -/
theorem is_armed_spec_app :
    is_armed 300 ⟨true, some 0, some "maintenance"⟩ 400 = (disarmedState, false) :=
  (is_armed_spec 300 ⟨true, some 0, some "maintenance"⟩ 400).2 0 rfl rfl (by norm_num)

/-- C8: the invariant "armed implies armed_at is set" holds initially and
is preserved by arm_dangerous_operations, disarm_dangerous_operations,
is_armed and get_armed_time_remaining. -/
theorem armed_implies_armed_at :
    ArmInv initialArmState
    ∧ (∀ (ttl : ℤ) (s : ArmState) (now : ℚ) (reason : String),
        ArmInv (arm_dangerous_operations ttl s now reason).1)
    ∧ (∀ s : ArmState, ArmInv (disarm_dangerous_operations s).1)
    ∧ (∀ (ttl : ℤ) (s : ArmState) (now : ℚ),
        ArmInv s → ArmInv (is_armed ttl s now).1)
    ∧ (∀ (ttl : ℤ) (s : ArmState) (now : ℚ),
        ArmInv s → ArmInv (get_armed_time_remaining ttl s now).1) := by
  refine ⟨armInv_disarmed, ?_, ?_, ?_, ?_⟩
  · intro ttl s now reason _
    simp [arm_dangerous_operations]
  · intro s h
    exact armInv_disarmed h
  · intro ttl s now h
    rcases is_armed_fst ttl s now with he | he <;> rw [he]
    · exact h
    · exact armInv_disarmed
  · intro ttl s now h
    rw [get_armed_time_remaining_fst]
    rcases is_armed_fst ttl s now with he | he <;> rw [he]
    · exact h
    · exact armInv_disarmed

/-- Witness for C8: the invariant holds after querying the initial state
and after arming it. -/
theorem armed_implies_armed_at_app :
    ArmInv (get_armed_time_remaining 300 initialArmState 0).1
    ∧ ArmInv (arm_dangerous_operations 300 initialArmState 0 "deploy").1 :=
  ⟨armed_implies_armed_at.2.2.2.2 300 initialArmState 0
      (by intro h; simp [initialArmState, disarmedState] at h),
   armed_implies_armed_at.2.1 300 initialArmState 0 "deploy"⟩

/-- C10: get_armed_time_remaining performs the lazy expiry sweep by
delegating to is_armed — on an expired state it returns 0 and clears the
stored state — and its result is always non-negative. -/
theorem get_armed_time_remaining_spec (ttl : ℤ) (s : ArmState) (now : ℚ) :
    (∀ t, s.armed = true → s.armed_at = some t → (ttl : ℚ) < now - t →
        get_armed_time_remaining ttl s now = (disarmedState, 0))
    ∧ 0 ≤ (get_armed_time_remaining ttl s now).2 := by
  constructor
  · intro t ha hat hgt
    have h1 : is_armed ttl s now = (disarmedState, false) :=
      is_armed_expired ttl s now t ha hat hgt
    simp [get_armed_time_remaining, h1]
  · unfold get_armed_time_remaining
    split
    · simp
    · split <;> simp

/-- Witness for C10: an expired state queried through
get_armed_time_remaining yields 0 and the cleared state. -/
theorem get_armed_time_remaining_spec_app :
    get_armed_time_remaining 300 ⟨true, some 0, some "deploy"⟩ 400 = (disarmedState, 0) :=
  (get_armed_time_remaining_spec 300 ⟨true, some 0, some "deploy"⟩ 400).1 0 rfl rfl
    (by norm_num)

/-- C1 counterexample: `twincat_run_tcunit` is not in the dangerous-tool
set, yet `check_armed_for_tool` denies it (allowed = false) when called
while disarmed with a remote amsNetId — so armed-state does gate the
dispatch of a non-dangerous tool. -/
theorem tcunit_gated_counterexample :
    ("twincat_run_tcunit" ∉ DANGEROUS_TOOLS)
    ∧ (check_armed_for_tool 300 "twincat_run_tcunit"
         [("amsNetId", PyVal.vStr "192.168.1.5.1.1")] initialArmState 0).2.1 = false := by
  constructor
  · decide
  · rfl

/-- C1 (amended): for every tool name that is neither in the dangerous set
nor the special-cased `twincat_run_tcunit`, `check_armed_for_tool` allows
the call with an empty message and an unchanged state, regardless of the
armed state. -/
theorem check_armed_non_dangerous (ttl : ℤ) (name : String) (args : Args)
    (s : ArmState) (now : ℚ)
    (h1 : name ∉ DANGEROUS_TOOLS) (h2 : name ≠ "twincat_run_tcunit") :
    check_armed_for_tool ttl name args s now = (s, true, "") := by
  simp [check_armed_for_tool, h1, h2]

/-- Witness for C1: the non-dangerous tool `twincat_build` is allowed in
the initial disarmed state. -/
theorem check_armed_non_dangerous_app :
    check_armed_for_tool 300 "twincat_build" [] initialArmState 0
      = (initialArmState, true, "") :=
  check_armed_non_dangerous 300 "twincat_build" [] initialArmState 0
    (by decide) (by decide)

/-- C6: for a dangerous tool while not effectively armed, the router denies
before the confirmation checker is consulted (the outcome is the
armed-guard denial, carrying the message that instructs the caller to arm
first) and never reaches the per-tool branches where the external process
is invoked. -/
theorem dangerous_disarmed_denied (ttl : ℤ) (name : String) (args : Args)
    (s : ArmState) (now : ℚ)
    (hmem : name ∈ DANGEROUS_TOOLS) (hdis : (is_armed ttl s now).2 = false) :
    (call_tool_route ttl name args s now).2
        = RouteOutcome.armDenied (armDenialMessage name ttl)
    ∧ mayInvokeExternal (call_tool_route ttl name args s now).2 = false := by
  fin_cases hmem <;>
    simp [call_tool_route, check_armed_for_tool, DANGEROUS_TOOLS, hdis,
      mayInvokeExternal]

/-- Witness for C6: calling `twincat_activate` in the initial disarmed
state yields the armed-guard denial and no external invocation. -/
theorem dangerous_disarmed_denied_app :
    (call_tool_route 300 "twincat_activate" [] initialArmState 0).2
        = RouteOutcome.armDenied (armDenialMessage "twincat_activate" 300)
    ∧ mayInvokeExternal
        (call_tool_route 300 "twincat_activate" [] initialArmState 0).2 = false :=
  dangerous_disarmed_denied 300 "twincat_activate" [] initialArmState 0
    (by decide) rfl

/-- C7: `check_confirmation` allows a call iff the tool is not in the
confirmation-required set or the supplied `confirm` argument equals the
literal "CONFIRM" exactly; a missing argument defaults to the empty string
(hence is denied).  The function takes no armed state at all, so its
result is independent of it. -/
theorem check_confirmation_spec (name : String) (args : Args) :
    ((check_confirmation name args).1 = true ↔
      (name ∉ CONFIRMATION_REQUIRED_TOOLS
        ∨ getArgD args "confirm" (.vStr "") = .vStr CONFIRM_TOKEN))
    ∧ (getArg args "confirm" = none →
        getArgD args "confirm" (.vStr "") = .vStr "") := by
  constructor
  · by_cases hm : name ∈ CONFIRMATION_REQUIRED_TOOLS <;>
      by_cases hc : getArgD args "confirm" (.vStr "") = .vStr CONFIRM_TOKEN <;>
      simp [check_confirmation, hm, hc]
  · intro h
    simp [getArgD, h]

/-- Witness for C7: the exact token is accepted for a
confirmation-required tool, and a missing token defaults to "". -/
theorem check_confirmation_spec_app :
    (check_confirmation "twincat_activate" [("confirm", PyVal.vStr "CONFIRM")]).1 = true
    ∧ getArgD [] "confirm" (PyVal.vStr "") = PyVal.vStr "" :=
  ⟨(check_confirmation_spec "twincat_activate"
      [("confirm", PyVal.vStr "CONFIRM")]).1.mpr (Or.inr (by decide)),
   (check_confirmation_spec "twincat_activate" []).2 rfl⟩

lemma foldl_processStderrLine (lines : List String) (acc : List String) :
    lines.foldl processStderrLine acc
      = acc ++ lines.map (fun l => if pyStartsWith l "[PROGRESS]"
          then pyStrip (pyDrop 10 l) else l) := by
  induction lines generalizing acc with
  | nil => simp
  | cons l ls ih =>
    by_cases h : pyStartsWith l "[PROGRESS]" = true <;>
      simp [processStderrLine, h, ih]

/-- C9: draining the captured stderr lines appends, to a single ordered
sequence in emission order, each "[PROGRESS]"-tagged line with the marker
stripped and each untagged line as captured; and on a completed run,
`run_tc_automation_with_progress` returns exactly that sequence. -/
theorem progress_line_handling (lines : List String) :
    collectProgress lines
      = lines.map (fun l => if pyStartsWith l "[PROGRESS]"
          then pyStrip (pyDrop 10 l) else l)
    ∧ ∀ (jsonOk : String → Bool) (stdout : String) (tm : ℤ),
        wpProgress (run_tc_automation_with_progress true jsonOk
            (WPBehavior.completes stdout lines) tm)
          = collectProgress lines := by
  constructor
  · simpa using foldl_processStderrLine lines []
  · intro jsonOk stdout tm
    simp only [run_tc_automation_with_progress, find_tc_automation_exe, if_true]
    split
    · split <;> rfl
    · rfl

/-- C2 counterexample: when no executable exists at any candidate path,
both supervisor functions propagate the `FileNotFoundError` raised by
`find_tc_automation_exe` (an `Except.error`) instead of returning a
structured failure result. -/
theorem supervisor_raises_when_exe_missing :
    run_tc_automation false jsonNever (ProcBehavior.completes "" "") "build" []
        = Except.error executableNotFoundMessage
    ∧ run_tc_automation_with_progress false jsonNever (WPBehavior.timesOut []) 10
        = Except.error executableNotFoundMessage
    ∧ isOkE (run_tc_automation false jsonNever (ProcBehavior.completes "" "") "build" [])
        = false :=
  ⟨rfl, rfl, rfl⟩

/-- C2 (amended): once an executable is found, both supervisor functions
return normally on every process behaviour — timeouts, spawn errors and
unparsable output each yield their tagged structured failure dict and no
exception escapes — but when no executable exists at any candidate path,
both propagate the `FileNotFoundError` raised before the try-block. -/
theorem supervisor_error_taxonomy (jsonOk : String → Bool) (b : ProcBehavior)
    (wb : WPBehavior) (c : String) (a : List String) (m so se : String)
    (wlines : List String) (tm : ℤ) :
    isOkE (run_tc_automation true jsonOk b c a) = true
    ∧ run_tc_automation true jsonOk ProcBehavior.timesOut c a
        = Except.ok (TcResult.timedOut "Command timed out after 5 minutes")
    ∧ run_tc_automation true jsonOk (ProcBehavior.spawnError m) c a
        = Except.ok (TcResult.exnCaught m)
    ∧ (pyStrip so ≠ "" → jsonOk so = false →
        run_tc_automation true jsonOk (ProcBehavior.completes so se) c a
          = Except.ok (TcResult.invalidJson ("Invalid JSON output: " ++ so) se))
    ∧ isOkE (run_tc_automation_with_progress true jsonOk wb tm) = true
    ∧ run_tc_automation_with_progress true jsonOk (WPBehavior.timesOut wlines) tm
        = Except.ok (WPResult.timedOut
            ("Command timed out after " ++ toString tm ++ " minutes"), [])
    ∧ run_tc_automation false jsonOk b c a = Except.error executableNotFoundMessage
    ∧ run_tc_automation_with_progress false jsonOk wb tm
        = Except.error executableNotFoundMessage := by
  refine ⟨?_, rfl, rfl, ?_, ?_, rfl, rfl, rfl⟩
  · cases b with
    | spawnError m2 => rfl
    | timesOut => rfl
    | completes so2 se2 =>
      simp only [run_tc_automation, find_tc_automation_exe, if_true]
      split
      · split <;> rfl
      · rfl
  · intro h1 h2
    simp [run_tc_automation, find_tc_automation_exe, h1, h2]
  · cases wb with
    | spawnError m2 => rfl
    | timesOut ls => rfl
    | completes so2 ls =>
      simp only [run_tc_automation_with_progress, find_tc_automation_exe, if_true]
      split
      · split <;> rfl
      · rfl

/-- Witness for C2: a completed run whose primary output is not JSON
yields the invalid-JSON failure dict carrying the raw text. -/
theorem supervisor_error_taxonomy_app :
    run_tc_automation true jsonNever (ProcBehavior.completes "notjson" "") "build" []
      = Except.ok (TcResult.invalidJson ("Invalid JSON output: " ++ "notjson") "") :=
  (supervisor_error_taxonomy jsonNever (ProcBehavior.completes "notjson" "")
      (WPBehavior.timesOut []) "build" [] "" "notjson" "" [] 10).2.2.2.1
    (by decide) rfl

/-- C3 (code-bug exhibit): a run that exceeds the deadline after the drain
worker captured two stderr lines returns the Timeout failure with an empty
progress list — the captured lines (which the drain loop would have turned
into two progress messages, as the second conjunct shows) sit in the
internal queue, which is only drained on the non-timeout path, and are
discarded. -/
theorem timeout_discards_captured_progress :
    run_tc_automation_with_progress true jsonNever
        (WPBehavior.timesOut ["[PROGRESS] Building solution", "warning: stale cache"]) 10
      = Except.ok (WPResult.timedOut "Command timed out after 10 minutes", [])
    ∧ collectProgress ["[PROGRESS] Building solution", "warning: stale cache"]
      = ["Building solution", "warning: stale cache"] :=
  ⟨rfl, rfl⟩

end TwincatMCP
